import Mathlib

/-!
Verification of the HID input translation core of the Atari ST keyboard
emulator (source file src/pico/HidInput.cpp).

The development shallowly embeds the three translation pipelines of the
`HidInput` class — keyboard, mouse and joystick — together with the shared
state holder, and proves the testable properties stated in the design
specification against that embedding.

Machine integers are modelled as `Nat` (unsigned registers and indices) or
`Int` (signed 8-bit mouse deltas); bitwise operations on the 8-bit
button/joystick registers are done with `Nat` bitwise operators, with the
bitwise complement of an 8-bit register written as xor against 255.
-/

namespace AtariHid

/-! ### Constants

USB HID constants from the TinyUSB headers (modifier masks, button masks)
and the USB HID usage tables (usage pages, usages), plus the Atari scan
codes defined at the top of HidInput.cpp. -/

def KEYBOARD_MODIFIER_LEFTCTRL : Nat := 1
def KEYBOARD_MODIFIER_LEFTSHIFT : Nat := 2
def KEYBOARD_MODIFIER_LEFTALT : Nat := 4
def KEYBOARD_MODIFIER_RIGHTCTRL : Nat := 16
def KEYBOARD_MODIFIER_RIGHTSHIFT : Nat := 32
def KEYBOARD_MODIFIER_RIGHTALT : Nat := 64

def MOUSE_BUTTON_LEFT : Nat := 1
def MOUSE_BUTTON_RIGHT : Nat := 2

def USAGE_PAGE_BUTTON : Nat := 9
def USAGE_PAGE_GENERIC_DCTRL : Nat := 1
def USAGE_X : Nat := 48
def USAGE_Y : Nat := 49
def HID_REPORT_ITEM_In : Nat := 0

def ATARI_LSHIFT : Nat := 42
def ATARI_RSHIFT : Nat := 54
def ATARI_ALT : Nat := 56
def ATARI_CTRL : Nat := 29

/-! ### External USB layer

The handlers consult the external USB host layer through
`tuh_hid_get_type`, `tuh_hid_is_mounted` and `tuh_hid_is_busy`.  These are
modelled as an environment of functions over device addresses.  The
numeric values of the `HID_TYPE` enumeration are not fixed by the source
file, so they are carried in the environment as well; `getType` returns 0
for "no HID type" (the enumeration value that converts to a false
condition in C). -/

structure HidEnv where
  hidKeyboard : Nat
  hidMouse : Nat
  hidGeneric : Nat
  getType : Nat → Nat
  mounted : Nat → Bool
  busy : Nat → Bool

/-! ### State holder

The mutable members of `HidInput`: the 128-entry key table (resized and
zero-filled by the constructor), the pending mouse motion pair
`(val_x, val_y)`, the previous-poll pair `(last_x, last_y)`, and the two
packed registers `mouse_state` and `joystick_state`.  The constructor only
initialises `key_states`; the other members keep whatever initial value
the surrounding object gives them, so `initState` takes them as
parameters. -/

structure HidState where
  key_states : List Nat
  val_x : Int
  val_y : Int
  last_x : Int
  last_y : Int
  mouse_state : Nat
  joystick_state : Nat
deriving DecidableEq, Repr

def initState (vx vy lx ly : Int) (ms js : Nat) : HidState :=
  { key_states := List.replicate 128 0
    val_x := vx, val_y := vy, last_x := lx, last_y := ly
    mouse_state := ms, joystick_state := js }

/-! ### Keyboard pipeline -/

/-- A boot-protocol keyboard report: the modifier bit field and the six
key-code slots (`kb->modifier` and `kb->keycode[0..5]`). -/
structure KbReport where
  modifier : Nat
  keycode : List Nat
deriving DecidableEq, Repr

/-- The filter at the top of the per-device loop of `handle_keyboard`,
exactly as written in the source:
`tuh_hid_get_type(it.first != HID_KEYBOARD)` — the boolean comparison is
the *argument* of `tuh_hid_get_type` (converting to device address 1 or
0), and the device is skipped when the returned type is non-zero. -/
def kbSkip (env : HidEnv) (addr : Nat) : Bool :=
  env.getType (if addr = env.hidKeyboard then 0 else 1) != 0

/-- The first loop of `handle_keyboard`: each of the six report slots is
translated through the scan-code map when the code lies strictly between
0 and 128, and is 0 otherwise.  The map `st_key_lookup_hid_gb` lives in a
header outside this source file, so it is a parameter `lookup`. -/
def st_keys_of (lookup : Nat → Nat) (kb : KbReport) : List Nat :=
  kb.keycode.map fun c => if 0 < c ∧ c < 128 then lookup c else 0

/-- The second loop of `handle_keyboard`, walking the key table from index
`i` upward: index 0 is left untouched (the C loop starts at 1), and every
other index is set to 1 exactly when it occurs among the translated
codes. -/
def keyPassAux (keys : List Nat) (i : Nat) : List Nat → List Nat
  | [] => []
  | v :: rest =>
    (if i = 0 then v else if keys.contains i then 1 else 0) :: keyPassAux keys (i + 1) rest

def keyPass (keys : List Nat) (ks : List Nat) : List Nat :=
  keyPassAux keys 0 ks

/-- The modifier block of `handle_keyboard`: the four Atari modifier slots
are overwritten from the modifier bit field, OR-ing the left/right
variants for control and alt. -/
def modApply (m : Nat) (ks : List Nat) : List Nat :=
  let ks1 := ks.set ATARI_LSHIFT (if m &&& KEYBOARD_MODIFIER_LEFTSHIFT ≠ 0 then 1 else 0)
  let ks2 := ks1.set ATARI_RSHIFT (if m &&& KEYBOARD_MODIFIER_RIGHTSHIFT ≠ 0 then 1 else 0)
  let ks3 := ks2.set ATARI_CTRL
    (if m &&& KEYBOARD_MODIFIER_LEFTCTRL ≠ 0 ∨ m &&& KEYBOARD_MODIFIER_RIGHTCTRL ≠ 0
     then 1 else 0)
  ks3.set ATARI_ALT
    (if m &&& KEYBOARD_MODIFIER_LEFTALT ≠ 0 ∨ m &&& KEYBOARD_MODIFIER_RIGHTALT ≠ 0
     then 1 else 0)

/-- The effect of decoding one keyboard report on the key table: translate
the six slots, recompute the table from the translated snapshot, then
apply the modifier bits. -/
def decode_keyboard (lookup : Nat → Nat) (kb : KbReport) (ks : List Nat) : List Nat :=
  modApply kb.modifier (keyPass (st_keys_of lookup kb) ks)

/-- `HidInput::handle_keyboard`: iterate over the device map (each entry
an address paired with its report buffer viewed as a keyboard report),
apply the source filter, and decode mounted non-busy devices. -/
def handle_keyboard (env : HidEnv) (lookup : Nat → Nat) :
    List (Nat × KbReport) → HidState → HidState
  | [], s => s
  | d :: rest, s =>
    if kbSkip env d.1 then handle_keyboard env lookup rest s
    else if env.mounted d.1 && !env.busy d.1 then
      handle_keyboard env lookup rest
        { s with key_states := decode_keyboard lookup d.2 s.key_states }
    else handle_keyboard env lookup rest s

/-! ### Mouse pipeline -/

/-- A boot-protocol mouse report: button bit field and the signed 8-bit
deltas. -/
structure MouseReport where
  buttons : Nat
  x : Int
  y : Int
deriving DecidableEq, Repr

/-- Same source shape as `kbSkip`, with `HID_MOUSE` in the comparison. -/
def mouseSkip (env : HidEnv) (addr : Nat) : Bool :=
  env.getType (if addr = env.hidMouse then 0 else 1) != 0

/-- The wrap-around glitch correction applied to one axis: a negative
current delta after a previous delta above 45 is forced to 127, a
positive current delta after a previous delta below -45 is forced to
-127, and any other delta passes through unchanged. -/
def glitch (last cur : Int) : Int :=
  if cur < 0 ∧ last > 45 then 127
  else if cur > 0 ∧ last < -45 then -127
  else cur

/-- The effect of decoding one mouse report: update the two button bits of
`mouse_state` (each cleared then set from the report), overwrite
`(val_x, val_y)` with the glitch-corrected deltas, and remember them as
`(last_x, last_y)`. -/
def decode_mouse (m : MouseReport) (s : HidState) : HidState :=
  let ms1 := (s.mouse_state &&& 0xfd) ||| (if m.buttons &&& MOUSE_BUTTON_LEFT ≠ 0 then 2 else 0)
  let ms2 := (ms1 &&& 0xfe) ||| (if m.buttons &&& MOUSE_BUTTON_RIGHT ≠ 0 then 1 else 0)
  let vx := glitch s.last_x m.x
  let vy := glitch s.last_y m.y
  { s with mouse_state := ms2, val_x := vx, val_y := vy, last_x := vx, last_y := vy }

/-- The per-device loop of `HidInput::handle_mouse`. -/
def mouse_loop (env : HidEnv) : List (Nat × MouseReport) → HidState → HidState
  | [], s => s
  | d :: rest, s =>
    if mouseSkip env d.1 then mouse_loop env rest s
    else if env.mounted d.1 && !env.busy d.1 then mouse_loop env rest (decode_mouse d.2 s)
    else mouse_loop env rest s

/-- `HidInput::handle_mouse`: decode the device reports, then — only when
`cpu_cycles` is non-zero — hand `(val_x, val_y)` to
`AtariSTMouse::set_speed` (modelled as the optional second component of
the result) and zero the pending pair. -/
def handle_mouse (env : HidEnv) (devs : List (Nat × MouseReport)) (cpu_cycles : Int)
    (s : HidState) : HidState × Option (Int × Int) :=
  let s1 := mouse_loop env devs s
  if cpu_cycles ≠ 0 then
    ({ s1 with val_x := 0, val_y := 0 }, some (s1.val_x, s1.val_y))
  else (s1, none)

/-! ### Joystick pipeline -/

/-- One parsed report item (`HID_ReportItem_t`): whether
`USB_GetHIDReportItemInfo` found it in the current report, its usage page,
usage and item type, the extracted value, and the logical range declared
by the report descriptor (carried by the parsed item structure; the
decoder itself never reads it). -/
structure ReportItem where
  present : Bool
  usagePage : Nat
  usage : Nat
  itemType : Nat
  value : Nat
  logicalMin : Nat
  logicalMax : Nat
deriving DecidableEq, Repr

/-- A generic device: its address and, when `tuh_hid_get_report_info`
returns a parsed descriptor, the list of report items. -/
structure JoyDevice where
  addr : Nat
  info : Option (List ReportItem)
deriving DecidableEq, Repr

/-- Same source shape as `kbSkip`, with `HID_GENERIC` in the comparison. -/
def joySkip (env : HidEnv) (addr : Nat) : Bool :=
  env.getType (if addr = env.hidGeneric then 0 else 1) != 0

/-- Decoding one report item for the port number held in the decremented
counter `joystick`: a button-page input item drives one of the two button
bits of `mouse_state`; a desktop-page X or Y input item drives a two-bit
pair of `joystick_state` at offset 2 (X) or 0 (Y), shifted up by 4 when
`joystick = 1`; the pair is cleared, then the low bit is set when the
value is below 0x80 and the high bit when it is above 0x80. -/
def decode_item (joystick : Int) (s : HidState) (item : ReportItem) : HidState :=
  if ¬item.present then s
  else if item.usagePage = USAGE_PAGE_BUTTON ∧ item.itemType = HID_REPORT_ITEM_In then
    if joystick = 0 then
      { s with mouse_state :=
          (s.mouse_state &&& 0xfd) ||| (if item.value ≠ 0 then 2 else 0) }
    else
      { s with mouse_state :=
          (s.mouse_state &&& 0xfe) ||| (if item.value ≠ 0 then 1 else 0) }
  else if item.usagePage = USAGE_PAGE_GENERIC_DCTRL ∧
      (item.usage = USAGE_X ∨ item.usage = USAGE_Y) ∧
      item.itemType = HID_REPORT_ITEM_In then
    let bit := (if item.usage = USAGE_X then 2 else 0) + (if joystick = 1 then 4 else 0)
    let js1 := s.joystick_state &&& (255 ^^^ (3 <<< bit))
    let js2 :=
      if item.value < 0x80 then js1 ||| (1 <<< bit)
      else if item.value > 0x80 then js1 ||| (1 <<< (bit + 1))
      else js1
    { s with joystick_state := js2 }
  else s

/-- The inner loop over `info->TotalReportItems` report items. -/
def decode_items (joystick : Int) : List ReportItem → HidState → HidState
  | [], s => s
  | item :: rest, s => decode_items joystick rest (decode_item joystick s item)

/-- Decoding one generic device: when a parsed descriptor is available,
walk its report items. -/
def decode_joy_device (joystick : Int) (d : JoyDevice) (s : HidState) : HidState :=
  match d.info with
  | none => s
  | some items => decode_items joystick items s

/-- The loop of `HidInput::handle_joystick` with the port counter made
explicit: the source filter is evaluated first; then the counter is
decremented and the loop breaks when it goes negative; only then are the
mounted and busy flags consulted. -/
def joy_loop (env : HidEnv) (cnt : Int) (devs : List JoyDevice) (s : HidState) : HidState :=
  match devs with
  | [] => s
  | d :: rest =>
    if joySkip env d.addr then joy_loop env cnt rest s
    else if cnt - 1 < 0 then s
    else if env.mounted d.addr && !env.busy d.addr then
      joy_loop env (cnt - 1) rest (decode_joy_device (cnt - 1) d s)
    else joy_loop env (cnt - 1) rest s

/-- `HidInput::handle_joystick`: the counter starts at 2, so the first
device processed becomes port 1 and the second port 0. -/
def handle_joystick (env : HidEnv) (devs : List JoyDevice) (s : HidState) : HidState :=
  joy_loop env 2 devs s

/-! ### Reset and queries -/

/-- `HidInput::reset`: refill the key table with zeros. -/
def reset (s : HidState) : HidState :=
  { s with key_states := List.replicate s.key_states.length 0 }

/-- `HidInput::keydown`: table lookup guarded by `code < 128`; any larger
code returns 0 without touching the table. -/
def keydown (s : HidState) (code : Nat) : Nat :=
  if code < 128 then s.key_states.getD code 0 else 0

/-! ### Reachable states

The states the `HidInput` singleton can be in: freshly constructed, or
obtained from a reachable state by one invocation of a handler or of
`reset`, with arbitrary environment, scan-code map, device list and cycle
count. -/

inductive Reachable : HidState → Prop where
  | init (vx vy lx ly : Int) (ms js : Nat) : Reachable (initState vx vy lx ly ms js)
  | kb (env : HidEnv) (lookup : Nat → Nat) (devs : List (Nat × KbReport)) (s : HidState) :
      Reachable s → Reachable (handle_keyboard env lookup devs s)
  | mouse (env : HidEnv) (devs : List (Nat × MouseReport)) (cycles : Int) (s : HidState) :
      Reachable s → Reachable (handle_mouse env devs cycles s).1
  | joy (env : HidEnv) (devs : List JoyDevice) (s : HidState) :
      Reachable s → Reachable (handle_joystick env devs s)
  | rst (s : HidState) : Reachable s → Reachable (reset s)

/-! ### Basic lemmas about the key table operations -/

lemma keyPassAux_length (keys : List Nat) : ∀ (i : Nat) (l : List Nat),
    (keyPassAux keys i l).length = l.length := by
  intro i l
  induction l generalizing i with
  | nil => rfl
  | cons v rest ih => simp [keyPassAux, ih]

lemma keyPass_length (keys ks : List Nat) : (keyPass keys ks).length = ks.length :=
  keyPassAux_length keys 0 ks

lemma modApply_length (m : Nat) (ks : List Nat) : (modApply m ks).length = ks.length := by
  simp [modApply, List.length_set]

lemma decode_keyboard_length (lookup : Nat → Nat) (kb : KbReport) (ks : List Nat) :
    (decode_keyboard lookup kb ks).length = ks.length := by
  rw [decode_keyboard, modApply_length, keyPass_length]

lemma keyPassAux_getD (keys : List Nat) : ∀ (l : List Nat) (i j : Nat), j < l.length →
    (keyPassAux keys i l).getD j 0 =
      if i + j = 0 then l.getD j 0 else if keys.contains (i + j) then 1 else 0 := by
  intro l
  induction l with
  | nil => intro i j h; simp at h
  | cons v rest ih =>
    intro i j h
    cases j with
    | zero => simp [keyPassAux, List.getD]
    | succ j =>
      have hj : j < rest.length := by simpa using h
      have := ih (i + 1) j hj
      simp only [keyPassAux, List.getD_cons_succ]
      rw [this, show i + 1 + j = i + (j + 1) from by omega]

lemma keyPass_getD (keys ks : List Nat) (j : Nat) (h1 : 1 ≤ j) (h2 : j < ks.length) :
    (keyPass keys ks).getD j 0 = if keys.contains j then 1 else 0 := by
  rw [keyPass, keyPassAux_getD keys ks 0 j h2, if_neg (by omega : ¬ 0 + j = 0), Nat.zero_add]

lemma keyPass_getD0 (keys ks : List Nat) : (keyPass keys ks).getD 0 0 = ks.getD 0 0 := by
  cases ks with
  | nil => rfl
  | cons v rest => simp [keyPass, keyPassAux, List.getD]

lemma getD_set_ne (l : List Nat) (i j a : Nat) (h : i ≠ j) :
    (l.set i a).getD j 0 = l.getD j 0 := by
  rw [List.getD_eq_getElem?_getD, List.getD_eq_getElem?_getD, List.getElem?_set_ne h]

lemma getD_set_self (l : List Nat) (i a : Nat) (h : i < l.length) :
    (l.set i a).getD i 0 = a := by
  rw [List.getD_eq_getElem?_getD, List.getElem?_set_self' ]
  simp [List.getElem?_eq_getElem h]

lemma modApply_getD (m : Nat) (ks : List Nat) (j : Nat)
    (h : j ≠ ATARI_LSHIFT ∧ j ≠ ATARI_RSHIFT ∧ j ≠ ATARI_CTRL ∧ j ≠ ATARI_ALT) :
    (modApply m ks).getD j 0 = ks.getD j 0 := by
  obtain ⟨h1, h2, h3, h4⟩ := h
  simp only [modApply]
  rw [getD_set_ne _ _ _ _ (Ne.symm h4), getD_set_ne _ _ _ _ (Ne.symm h3),
    getD_set_ne _ _ _ _ (Ne.symm h2), getD_set_ne _ _ _ _ (Ne.symm h1)]

lemma decode_keyboard_getD0 (lookup : Nat → Nat) (kb : KbReport) (ks : List Nat) :
    (decode_keyboard lookup kb ks).getD 0 0 = ks.getD 0 0 := by
  rw [decode_keyboard, modApply_getD, keyPass_getD0]
  refine ⟨?_, ?_, ?_, ?_⟩ <;> simp [ATARI_LSHIFT, ATARI_RSHIFT, ATARI_CTRL, ATARI_ALT]

/-! ### Key-table facts about the handlers -/

lemma getD_replicate_zero (r n : Nat) : (List.replicate r 0).getD n 0 = 0 := by
  rw [List.getD_eq_getElem?_getD, List.getElem?_replicate]
  split <;> simp

lemma handle_keyboard_key_states (env : HidEnv) (lookup : Nat → Nat)
    (devs : List (Nat × KbReport)) (s : HidState) :
    (handle_keyboard env lookup devs s).key_states.length = s.key_states.length ∧
    (handle_keyboard env lookup devs s).key_states.getD 0 0 = s.key_states.getD 0 0 := by
  induction devs generalizing s with
  | nil => exact ⟨rfl, rfl⟩
  | cons d rest ih =>
    rw [handle_keyboard]
    split
    · exact ih s
    · split
      · have := ih { s with key_states := decode_keyboard lookup d.2 s.key_states }
        refine ⟨this.1.trans ?_, this.2.trans ?_⟩
        · exact decode_keyboard_length lookup d.2 s.key_states
        · exact decode_keyboard_getD0 lookup d.2 s.key_states
      · exact ih s

lemma mouse_loop_key_states (env : HidEnv) (devs : List (Nat × MouseReport)) (s : HidState) :
    (mouse_loop env devs s).key_states = s.key_states := by
  induction devs generalizing s with
  | nil => rfl
  | cons d rest ih =>
    rw [mouse_loop]
    split
    · exact ih s
    · split
      · rw [ih (decode_mouse d.2 s)]; rfl
      · exact ih s

lemma handle_mouse_key_states (env : HidEnv) (devs : List (Nat × MouseReport))
    (cycles : Int) (s : HidState) :
    (handle_mouse env devs cycles s).1.key_states = s.key_states := by
  rw [handle_mouse]
  split <;> simp [mouse_loop_key_states]

lemma decode_item_key_states (joystick : Int) (s : HidState) (item : ReportItem) :
    (decode_item joystick s item).key_states = s.key_states := by
  rw [decode_item]
  split
  · rfl
  · split
    · split <;> rfl
    · split <;> rfl

lemma decode_items_key_states (joystick : Int) : ∀ (items : List ReportItem) (s : HidState),
    (decode_items joystick items s).key_states = s.key_states := by
  intro items
  induction items with
  | nil => intro s; rfl
  | cons it rest ih =>
    intro s
    rw [decode_items, ih (decode_item joystick s it), decode_item_key_states]

lemma decode_joy_device_key_states (joystick : Int) (d : JoyDevice) (s : HidState) :
    (decode_joy_device joystick d s).key_states = s.key_states := by
  rw [decode_joy_device]
  split
  · rfl
  · exact decode_items_key_states joystick _ s

lemma joy_loop_key_states (env : HidEnv) : ∀ (cnt : Int) (devs : List JoyDevice) (s : HidState),
    (joy_loop env cnt devs s).key_states = s.key_states := by
  intro cnt devs
  induction devs generalizing cnt with
  | nil => intro s; rfl
  | cons d rest ih =>
    intro s
    rw [joy_loop]
    split
    · exact ih cnt s
    · split
      · rfl
      · split
        · rw [ih (cnt - 1) _, decode_joy_device_key_states]
        · exact ih (cnt - 1) s

lemma handle_joystick_key_states (env : HidEnv) (devs : List JoyDevice) (s : HidState) :
    (handle_joystick env devs s).key_states = s.key_states :=
  joy_loop_key_states env 2 devs s

/-- The structural invariant of every reachable state: the key table keeps
the 128 entries the constructor gave it, and slot 0 is never written. -/
lemma reachable_inv (s : HidState) (h : Reachable s) :
    s.key_states.length = 128 ∧ s.key_states.getD 0 0 = 0 := by
  induction h with
  | init vx vy lx ly ms js =>
    exact ⟨by simp [initState], getD_replicate_zero 128 0⟩
  | kb env lookup devs s _ ih =>
    have := handle_keyboard_key_states env lookup devs s
    exact ⟨this.1.trans ih.1, this.2.trans ih.2⟩
  | mouse env devs cycles s _ ih =>
    rw [handle_mouse_key_states]; exact ih
  | joy env devs s _ ih =>
    rw [handle_joystick_key_states]; exact ih
  | rst s _ ih =>
    exact ⟨by simp [reset, ih.1], getD_replicate_zero _ 0⟩

/-! ### Bit-level helper lemmas -/

lemma msBits_preserved (x a b i : Nat) (ha : a < 4) (hb : b < 4) (h2 : 2 ≤ i) (h7 : i ≤ 7) :
    ((((x &&& 253) ||| a) &&& 254) ||| b).testBit i = x.testBit i := by
  have h253 : Nat.testBit 253 i = true := by interval_cases i <;> decide
  have h254 : Nat.testBit 254 i = true := by interval_cases i <;> decide
  have hpow : (4 : Nat) ≤ 2 ^ i :=
    le_trans (by norm_num) (Nat.pow_le_pow_right (by omega) h2)
  have hai : a.testBit i = false := Nat.testBit_lt_two_pow (lt_of_lt_of_le ha hpow)
  have hbi : b.testBit i = false := Nat.testBit_lt_two_pow (lt_of_lt_of_le hb hpow)
  simp [Nat.testBit_lor, Nat.testBit_land, h253, h254, hai, hbi]

lemma clearPair_testBit (js b i : Nat) (hb : b ≤ 6) (hi : i = b ∨ i = b + 1) :
    (js &&& (255 ^^^ (3 <<< b))).testBit i = false := by
  have hle : i ≤ 7 := by omega
  have h255 : Nat.testBit 255 i = true := by interval_cases i <;> decide
  have h3 : ((3 : Nat) <<< b).testBit i = true := by
    rw [Nat.testBit_shiftLeft]
    rcases hi with rfl | rfl
    · simp
    · rw [decide_eq_true (by omega : b ≤ b + 1), Nat.add_sub_cancel_left]
      decide
  rw [Nat.testBit_land, Nat.testBit_xor, h255, h3]
  simp

lemma shiftOne_testBit_self (b : Nat) : ((1 : Nat) <<< b).testBit b = true := by
  rw [Nat.testBit_shiftLeft, decide_eq_true (le_refl b), Nat.sub_self]
  rfl

lemma shiftOne_testBit_ne (b i : Nat) (h : i ≠ b) : ((1 : Nat) <<< b).testBit i = false := by
  rw [Nat.testBit_shiftLeft]
  by_cases hbi : b ≤ i
  · rw [decide_eq_true hbi, show (1 : Nat) = 2 ^ 0 from rfl, Nat.testBit_two_pow]
    simp
    omega
  · rw [decide_eq_false hbi]
    rfl

/-! ### Concrete scenario inputs -/

/-- An environment in which `tuh_hid_get_type` reports no type for device
addresses 0 and 1 (the addresses the malformed filter conditions actually
query, so no device is skipped), and every device is mounted and idle. -/
def benignEnv : HidEnv :=
  { hidKeyboard := 1, hidMouse := 2, hidGeneric := 3
    getType := fun _ => 0
    mounted := fun _ => true
    busy := fun _ => false }

/-- A desktop-control X-axis input report item with value `v` and the
standard 8-bit logical range. -/
def axisItemX (v : Nat) : ReportItem :=
  { present := true, usagePage := USAGE_PAGE_GENERIC_DCTRL, usage := USAGE_X
    itemType := HID_REPORT_ITEM_In, value := v, logicalMin := 0, logicalMax := 255 }

/-- The state after the two C1 polls, raw deltas (3, -2) then (4, 1), each
with zero elapsed cycles (decode only, no consumption tick). -/
def c1Poll1 : HidState :=
  (handle_mouse benignEnv [(5, ⟨0, 3, -2⟩)] 0 (initState 0 0 0 0 0 0)).1

def c1Poll2 : HidState :=
  (handle_mouse benignEnv [(5, ⟨0, 4, 1⟩)] 0 c1Poll1).1

/-- The consumption tick after the two C1 polls: non-zero elapsed cycles,
no report decoded during the tick call. -/
def c1Tick : HidState × Option (Int × Int) :=
  handle_mouse benignEnv [] 1 c1Poll2

/-! ### Claim theorems -/

/-- C3: on every mouse poll, a negative raw delta after a stored previous
delta above 45 is forced to 127, a positive raw delta after a stored
previous delta below -45 is forced to -127, any other raw delta is used
unchanged, and the corrected value is what is stored as the previous
sample; in particular previous 100 with current -5 gives 127 and previous
-90 with current 3 gives -127. -/
theorem C3_glitch_correction (last cur : Int) (m : MouseReport) (s : HidState) :
    (cur < 0 → 45 < last → glitch last cur = 127) ∧
    (0 < cur → last < -45 → glitch last cur = -127) ∧
    (¬(cur < 0 ∧ 45 < last) → ¬(0 < cur ∧ last < -45) → glitch last cur = cur) ∧
    (decode_mouse m s).last_x = glitch s.last_x m.x ∧
    (decode_mouse m s).last_y = glitch s.last_y m.y ∧
    glitch 100 (-5) = 127 ∧ glitch (-90) 3 = -127 := by
  refine ⟨?_, ?_, ?_, rfl, rfl, by decide, by decide⟩
  · intro h1 h2
    rw [glitch, if_pos ⟨h1, h2⟩]
  · intro h1 h2
    rw [glitch, if_neg (by rintro ⟨a, b⟩; omega), if_pos ⟨h1, h2⟩]
  · intro h1 h2
    rw [glitch, if_neg h1, if_neg h2]

theorem C3_glitch_correction_witness :
    ((-5 : Int) < 0 ∧ (45 : Int) < 100) ∧ glitch 100 (-5) = 127 :=
  ⟨by decide,
   (C3_glitch_correction 100 (-5) ⟨0, 0, 0⟩ (initState 0 0 0 0 0 0)).1 (by decide) (by decide)⟩

/-- C6: decoding a mouse report with the left button pressed sets bit 1 of
the shared button mask, a pressed right button sets bit 0, and bits 2
through 7 of the mask are unchanged by the decode. -/
theorem C6_mouse_buttons (m : MouseReport) (s : HidState) :
    (m.buttons &&& MOUSE_BUTTON_LEFT ≠ 0 → (decode_mouse m s).mouse_state.testBit 1 = true) ∧
    (m.buttons &&& MOUSE_BUTTON_RIGHT ≠ 0 → (decode_mouse m s).mouse_state.testBit 0 = true) ∧
    (∀ i, 2 ≤ i → i ≤ 7 →
      (decode_mouse m s).mouse_state.testBit i = s.mouse_state.testBit i) := by
  refine ⟨?_, ?_, ?_⟩
  · intro h
    by_cases hr : m.buttons &&& MOUSE_BUTTON_RIGHT ≠ 0 <;>
      simp [decode_mouse, h, hr, Nat.testBit_lor, Nat.testBit_land,
        (by decide : Nat.testBit 2 1 = true), (by decide : Nat.testBit 254 1 = true)]
  · intro h
    by_cases hl : m.buttons &&& MOUSE_BUTTON_LEFT ≠ 0 <;>
      simp [decode_mouse, h, hl, Nat.testBit_lor, Nat.testBit_land,
        (by decide : Nat.testBit 1 0 = true)]
  · intro i h2 h7
    have : (decode_mouse m s).mouse_state =
        (((s.mouse_state &&& 253) ||| (if m.buttons &&& MOUSE_BUTTON_LEFT ≠ 0 then 2 else 0))
          &&& 254) ||| (if m.buttons &&& MOUSE_BUTTON_RIGHT ≠ 0 then 1 else 0) := rfl
    rw [this, msBits_preserved _ _ _ i ?_ ?_ h2 h7]
    · split <;> omega
    · split <;> omega

theorem C6_mouse_buttons_witness :
    ((3 : Nat) &&& MOUSE_BUTTON_LEFT ≠ 0 ∧
      (decode_mouse ⟨3, 0, 0⟩ (initState 0 0 0 0 172 0)).mouse_state.testBit 1 = true) ∧
    ((3 : Nat) &&& MOUSE_BUTTON_RIGHT ≠ 0 ∧
      (decode_mouse ⟨3, 0, 0⟩ (initState 0 0 0 0 172 0)).mouse_state.testBit 0 = true) ∧
    ((2 : Nat) ≤ 5 ∧ (5 : Nat) ≤ 7 ∧
      (decode_mouse ⟨3, 0, 0⟩ (initState 0 0 0 0 172 0)).mouse_state.testBit 5 =
        (initState 0 0 0 0 172 0).mouse_state.testBit 5) :=
  ⟨⟨by decide, (C6_mouse_buttons ⟨3, 0, 0⟩ (initState 0 0 0 0 172 0)).1 (by decide)⟩,
   ⟨by decide, (C6_mouse_buttons ⟨3, 0, 0⟩ (initState 0 0 0 0 172 0)).2.1 (by decide)⟩,
   ⟨by decide, by decide,
    (C6_mouse_buttons ⟨3, 0, 0⟩ (initState 0 0 0 0 172 0)).2.2 5 (by decide) (by decide)⟩⟩

/-- C7: reset yields a key table in which every slot reads not-down while
the mouse accumulator, the previous-sample pair, the shared button mask
and the joystick mask are unchanged, whatever state the object is in. -/
theorem C7_reset_clears_keys_only (s : HidState) :
    (∀ code, keydown (reset s) code = 0) ∧
    (reset s).val_x = s.val_x ∧ (reset s).val_y = s.val_y ∧
    (reset s).last_x = s.last_x ∧ (reset s).last_y = s.last_y ∧
    (reset s).mouse_state = s.mouse_state ∧
    (reset s).joystick_state = s.joystick_state := by
  refine ⟨?_, rfl, rfl, rfl, rfl, rfl, rfl⟩
  intro code
  rw [keydown]
  split
  · exact getD_replicate_zero _ _
  · rfl

/-- C8: in every reachable state — after construction and any sequence of
keyboard, mouse and joystick polls and resets — the key-down query for
code 0 returns 0. -/
theorem C8_slot0_never_down (s : HidState) (h : Reachable s) : keydown s 0 = 0 := by
  rw [keydown, if_pos (by omega : (0 : Nat) < 128)]
  exact (reachable_inv s h).2

theorem C8_slot0_never_down_witness : keydown (initState 0 0 0 0 0 0) 0 = 0 :=
  C8_slot0_never_down _ (Reachable.init 0 0 0 0 0 0)

/-- C9: the key-down query returns 0 for every code at or above the table
size of 128 without consulting the table, and for every code below 128
the table access is within the bounds of the 128-entry table of any
reachable state. -/
theorem C9_keydown_bounds :
    (∀ (s : HidState) (code : Nat), 128 ≤ code → keydown s code = 0) ∧
    (∀ (s : HidState), Reachable s →
      ∀ code : Nat, code < 128 → code < s.key_states.length) := by
  constructor
  · intro s code h
    rw [keydown, if_neg (by omega)]
  · intro s hs code hc
    rw [(reachable_inv s hs).1]
    exact hc

theorem C9_keydown_bounds_witness :
    ((128 : Nat) ≤ 200 ∧ keydown (initState 0 0 0 0 0 0) 200 = 0) ∧
    ((5 : Nat) < 128 ∧ 5 < (initState 0 0 0 0 0 0).key_states.length) :=
  ⟨⟨by decide, C9_keydown_bounds.1 (initState 0 0 0 0 0 0) 200 (by decide)⟩,
   ⟨by decide,
    C9_keydown_bounds.2 (initState 0 0 0 0 0 0) (Reachable.init 0 0 0 0 0 0) 5 (by decide)⟩⟩

/-- C1 counterexample: two consecutive polls with raw deltas (3, -2) and
(4, 1) and no consumption tick between them (both calls return no motion)
deliver (4, 1) at the next non-zero-cycles tick, not the accumulated
(7, -1): the second poll overwrites the first. -/
theorem C1_counterexample :
    (handle_mouse benignEnv [(5, ⟨0, 3, -2⟩)] 0 (initState 0 0 0 0 0 0)).2 = none ∧
    (handle_mouse benignEnv [(5, ⟨0, 4, 1⟩)] 0 c1Poll1).2 = none ∧
    c1Tick.2 = some (4, 1) ∧
    some ((4 : Int), (1 : Int)) ≠ some ((7 : Int), (-1 : Int)) := by
  decide

/-- C1 amended: mouse motion does not accumulate between consumption
ticks; each decoded report overwrites the pending pair with its corrected
deltas, so the tick after polls (3, -2) and (4, 1) hands (4, 1) — the last
poll's value — to the motion sink and then zeroes the pending pair, and a
call with zero elapsed cycles decodes only: it delivers nothing and keeps
the pending pair as the loop left it. -/
theorem C1_amended_overwrite :
    (∀ (m : MouseReport) (s : HidState),
      (decode_mouse m s).val_x = glitch s.last_x m.x ∧
      (decode_mouse m s).val_y = glitch s.last_y m.y) ∧
    (∀ (env : HidEnv) (devs : List (Nat × MouseReport)) (s : HidState),
      handle_mouse env devs 0 s = (mouse_loop env devs s, none)) ∧
    c1Tick.2 = some (4, 1) ∧ c1Tick.1.val_x = 0 ∧ c1Tick.1.val_y = 0 := by
  refine ⟨fun m s => ⟨rfl, rfl⟩, fun env devs s => ?_, by decide, by decide, by decide⟩
  rw [handle_mouse, if_neg (by omega : ¬(0 : Int) ≠ 0)]

/-- The environment of the C2 failing input: the device at address 5 is
classified as a keyboard (`getType 5 = hidKeyboard`), no device exists at
addresses 0 and 1, and everything is mounted and idle. -/
def c2Env : HidEnv :=
  { hidKeyboard := 1, hidMouse := 2, hidGeneric := 3
    getType := fun a => if a = 5 then 1 else 0
    mounted := fun _ => true
    busy := fun _ => false }

/-- C2 failing input: the joystick handler decodes the keyboard-classified
device at address 5 as a joystick — its X-axis report item lands in the
joystick mask (port 1 pair, bit 6) — because the filter condition
`tuh_hid_get_type(it.first != HID_GENERIC)` tests the HID type of device
address 0 or 1 instead of the type of the device at hand, so a device
classified keyboard is not skipped. -/
theorem C2_keyboard_decoded_as_joystick :
    c2Env.getType 5 = c2Env.hidKeyboard ∧
    joySkip c2Env 5 = false ∧
    (handle_joystick c2Env [⟨5, some [axisItemX 0]⟩]
        (initState 0 0 0 0 0 0)).joystick_state = 64 := by
  decide

/-- The environment of the C10 scenario: all three candidate devices pass
the filter, all are mounted, and the first (address 6) is busy. -/
def c10Env : HidEnv :=
  { hidKeyboard := 1, hidMouse := 2, hidGeneric := 3
    getType := fun _ => 0
    mounted := fun _ => true
    busy := fun a => a == 6 }

/-- C10: the port counter is decremented for every candidate device before
the mounted and busy checks, so a busy first candidate still consumes port
1: the active second candidate is decoded as port 0 (its X item drives the
pair at bit 2, with value 0 setting the low bit), and an active third
candidate is never decoded (its X item, value 255, would have set a high
bit, but the final mask keeps only bit 2 beyond the initial bits outside
the cleared pair). -/
theorem C10_busy_candidate_consumes_slot (ms js : Nat) (vx vy lx ly : Int) :
    (handle_joystick c10Env
        [⟨6, some [axisItemX 255]⟩, ⟨7, some [axisItemX 0]⟩, ⟨8, some [axisItemX 255]⟩]
        (initState vx vy lx ly ms js)).joystick_state = (js &&& 243) ||| 4 := by
  rfl

lemma axis_pair_testBit (js v b : Nat) (hb : b ≤ 6) :
    ((if v < 128 then (js &&& (255 ^^^ (3 <<< b))) ||| (1 <<< b)
      else if 128 < v then (js &&& (255 ^^^ (3 <<< b))) ||| (1 <<< (b + 1))
      else js &&& (255 ^^^ (3 <<< b))).testBit b = decide (v < 128)) ∧
    ((if v < 128 then (js &&& (255 ^^^ (3 <<< b))) ||| (1 <<< b)
      else if 128 < v then (js &&& (255 ^^^ (3 <<< b))) ||| (1 <<< (b + 1))
      else js &&& (255 ^^^ (3 <<< b))).testBit (b + 1) = decide (128 < v)) := by
  rcases Nat.lt_trichotomy v 128 with hv | hv | hv
  · rw [if_pos hv, decide_eq_true hv, decide_eq_false (by omega : ¬ 128 < v)]
    constructor
    · rw [Nat.testBit_lor, clearPair_testBit js b b hb (Or.inl rfl), shiftOne_testBit_self]
      rfl
    · rw [Nat.testBit_lor, clearPair_testBit js b (b + 1) hb (Or.inr rfl),
        shiftOne_testBit_ne b (b + 1) (by omega)]
      rfl
  · rw [if_neg (by omega), if_neg (by omega),
      decide_eq_false (by omega : ¬ v < 128), decide_eq_false (by omega : ¬ 128 < v)]
    exact ⟨clearPair_testBit js b b hb (Or.inl rfl),
      clearPair_testBit js b (b + 1) hb (Or.inr rfl)⟩
  · rw [if_neg (by omega), if_pos hv,
      decide_eq_false (by omega : ¬ v < 128), decide_eq_true hv]
    constructor
    · rw [Nat.testBit_lor, clearPair_testBit js b b hb (Or.inl rfl),
        shiftOne_testBit_ne (b + 1) b (by omega)]
      rfl
    · rw [Nat.testBit_lor, clearPair_testBit js b (b + 1) hb (Or.inr rfl),
        shiftOne_testBit_self]
      rfl

/-- C5 amended: for a present desktop-control X or Y input item and port
counter value 0 or 1, the decoded two-bit pair sits at offset 2 (X, port
0), 6 (X, port 1), 0 (Y, port 0) or 4 (Y, port 1); the low bit of the
pair reads set exactly when the extracted value is below the fixed
threshold 0x80 = 128 and the high bit exactly when it is above it — the
comparison point is this constant, not the midpoint of the descriptor
declared logical range — so the value 0x80 itself leaves both bits
clear. -/
theorem C5_axis_decoding (s : HidState) (item : ReportItem) (jv : Int)
    (hp : item.present = true)
    (hpage : item.usagePage = USAGE_PAGE_GENERIC_DCTRL)
    (husage : item.usage = USAGE_X ∨ item.usage = USAGE_Y)
    (htype : item.itemType = HID_REPORT_ITEM_In)
    (hjv : jv = 0 ∨ jv = 1) :
    (decode_item jv s item).joystick_state.testBit
        ((if item.usage = USAGE_X then 2 else 0) + (if jv = 1 then 4 else 0)) =
      decide (item.value < 128) ∧
    (decode_item jv s item).joystick_state.testBit
        ((if item.usage = USAGE_X then 2 else 0) + (if jv = 1 then 4 else 0) + 1) =
      decide (128 < item.value) := by
  rcases husage with hu | hu <;> rcases hjv with hj | hj
  · have hbit : (if item.usage = USAGE_X then 2 else 0) + (if jv = 1 then 4 else 0) = 2 := by
      simp [hu, hj, USAGE_X, USAGE_Y]
    have hdec : (decode_item jv s item).joystick_state =
        (if item.value < 128 then (s.joystick_state &&& (255 ^^^ (3 <<< 2))) ||| (1 <<< 2)
         else if 128 < item.value then
           (s.joystick_state &&& (255 ^^^ (3 <<< 2))) ||| (1 <<< (2 + 1))
         else s.joystick_state &&& (255 ^^^ (3 <<< 2))) := by
      simp [decode_item, hp, hu, hj, hpage, htype, USAGE_PAGE_GENERIC_DCTRL,
        USAGE_PAGE_BUTTON, USAGE_X, USAGE_Y, HID_REPORT_ITEM_In]
    rw [hbit, hdec]
    exact axis_pair_testBit s.joystick_state item.value 2 (by norm_num)
  · have hbit : (if item.usage = USAGE_X then 2 else 0) + (if jv = 1 then 4 else 0) = 6 := by
      simp [hu, hj, USAGE_X, USAGE_Y]
    have hdec : (decode_item jv s item).joystick_state =
        (if item.value < 128 then (s.joystick_state &&& (255 ^^^ (3 <<< 6))) ||| (1 <<< 6)
         else if 128 < item.value then
           (s.joystick_state &&& (255 ^^^ (3 <<< 6))) ||| (1 <<< (6 + 1))
         else s.joystick_state &&& (255 ^^^ (3 <<< 6))) := by
      simp [decode_item, hp, hu, hj, hpage, htype, USAGE_PAGE_GENERIC_DCTRL,
        USAGE_PAGE_BUTTON, USAGE_X, USAGE_Y, HID_REPORT_ITEM_In]
    rw [hbit, hdec]
    exact axis_pair_testBit s.joystick_state item.value 6 (by norm_num)
  · have hbit : (if item.usage = USAGE_X then 2 else 0) + (if jv = 1 then 4 else 0) = 0 := by
      simp [hu, hj, USAGE_X, USAGE_Y]
    have hdec : (decode_item jv s item).joystick_state =
        (if item.value < 128 then (s.joystick_state &&& (255 ^^^ (3 <<< 0))) ||| (1 <<< 0)
         else if 128 < item.value then
           (s.joystick_state &&& (255 ^^^ (3 <<< 0))) ||| (1 <<< (0 + 1))
         else s.joystick_state &&& (255 ^^^ (3 <<< 0))) := by
      simp [decode_item, hp, hu, hj, hpage, htype, USAGE_PAGE_GENERIC_DCTRL,
        USAGE_PAGE_BUTTON, USAGE_X, USAGE_Y, HID_REPORT_ITEM_In]
    rw [hbit, hdec]
    exact axis_pair_testBit s.joystick_state item.value 0 (by norm_num)
  · have hbit : (if item.usage = USAGE_X then 2 else 0) + (if jv = 1 then 4 else 0) = 4 := by
      simp [hu, hj, USAGE_X, USAGE_Y]
    have hdec : (decode_item jv s item).joystick_state =
        (if item.value < 128 then (s.joystick_state &&& (255 ^^^ (3 <<< 4))) ||| (1 <<< 4)
         else if 128 < item.value then
           (s.joystick_state &&& (255 ^^^ (3 <<< 4))) ||| (1 <<< (4 + 1))
         else s.joystick_state &&& (255 ^^^ (3 <<< 4))) := by
      simp [decode_item, hp, hu, hj, hpage, htype, USAGE_PAGE_GENERIC_DCTRL,
        USAGE_PAGE_BUTTON, USAGE_X, USAGE_Y, HID_REPORT_ITEM_In]
    rw [hbit, hdec]
    exact axis_pair_testBit s.joystick_state item.value 4 (by norm_num)

theorem C5_axis_decoding_witness :
    ((axisItemX 5).present = true ∧
      (axisItemX 5).usagePage = USAGE_PAGE_GENERIC_DCTRL ∧
      (axisItemX 5).usage = USAGE_X ∧
      (axisItemX 5).itemType = HID_REPORT_ITEM_In) ∧
    (decode_item 0 (initState 0 0 0 0 0 0) (axisItemX 5)).joystick_state.testBit 2 =
      decide ((axisItemX 5).value < 128) ∧
    (decode_item 0 (initState 0 0 0 0 0 0) (axisItemX 5)).joystick_state.testBit 3 =
      decide (128 < (axisItemX 5).value) :=
  ⟨⟨rfl, rfl, rfl, rfl⟩, by
    have h := C5_axis_decoding (initState 0 0 0 0 0 0) (axisItemX 5) 0
      rfl rfl (Or.inl rfl) rfl (Or.inl rfl)
    exact ⟨h.1, h.2⟩⟩

/-- Modelled from the spec (the C5 wording): the axis rule with the
midpoint of the descriptor declared logical range; "below the midpoint"
is stated with both sides doubled so the midpoint is exact even when the
range has even width. -/
def specAxisBelowMid (item : ReportItem) : Prop :=
  2 * item.value < item.logicalMin + item.logicalMax

instance (item : ReportItem) : Decidable (specAxisBelowMid item) := by
  unfold specAxisBelowMid
  infer_instance

/-- A present X-axis input item whose descriptor declares logical range
0..510 (midpoint 255) and whose extracted value is 200. -/
def c5WideItem : ReportItem :=
  { present := true, usagePage := USAGE_PAGE_GENERIC_DCTRL, usage := USAGE_X
    itemType := HID_REPORT_ITEM_In, value := 200, logicalMin := 0, logicalMax := 510 }

/-- C5 counterexample: the extracted value 200 lies below the midpoint 255
of the descriptor declared logical range 0..510, so the claim requires
the low bit of the pair (bit 2, X on port 0) to be set and the high bit
clear; the decoder compares against the fixed 0x80 instead and produces
the opposite pair: low bit clear, high bit set. -/
theorem C5_counterexample :
    specAxisBelowMid c5WideItem ∧
    (decode_item 0 (initState 0 0 0 0 0 0) c5WideItem).joystick_state.testBit 2 = false ∧
    (decode_item 0 (initState 0 0 0 0 0 0) c5WideItem).joystick_state.testBit 3 = true := by
  decide

lemma modApply_zero_eq (ks : List Nat) :
    modApply 0 ks = (((ks.set 42 0).set 54 0).set 29 0).set 56 0 := rfl

/-- With no modifier bits, the slot `i` of the recomputed table reads: 0 on
the four modifier slots (overwritten last), the untouched slot 0, the
membership test for 1 up to 127, and the `getD` default beyond the
table. -/
lemma decode_mod0_getD (keys ks : List Nat) (hlen : ks.length = 128) (i : Nat) :
    (modApply 0 (keyPass keys ks)).getD i 0 =
      if i = 42 ∨ i = 54 ∨ i = 29 ∨ i = 56 then 0
      else if i = 0 then ks.getD 0 0
      else if i < 128 then (if keys.contains i then 1 else 0)
      else 0 := by
  have hkl : (keyPass keys ks).length = 128 := by rw [keyPass_length, hlen]
  rw [modApply_zero_eq]
  by_cases h42 : i = 42
  · subst h42
    rw [getD_set_ne _ _ _ _ (by omega), getD_set_ne _ _ _ _ (by omega),
      getD_set_ne _ _ _ _ (by omega), getD_set_self _ _ _ (by rw [hkl]; norm_num)]
    simp
  · by_cases h54 : i = 54
    · subst h54
      rw [getD_set_ne _ _ _ _ (by omega), getD_set_ne _ _ _ _ (by omega),
        getD_set_self _ _ _ (by rw [List.length_set, hkl]; norm_num)]
      simp
    · by_cases h29 : i = 29
      · subst h29
        rw [getD_set_ne _ _ _ _ (by omega),
          getD_set_self _ _ _ (by rw [List.length_set, List.length_set, hkl]; norm_num)]
        simp
      · by_cases h56 : i = 56
        · subst h56
          rw [getD_set_self _ _ _
            (by rw [List.length_set, List.length_set, List.length_set, hkl]; norm_num)]
          simp
        · rw [getD_set_ne _ _ _ _ (by omega), getD_set_ne _ _ _ _ (by omega),
            getD_set_ne _ _ _ _ (by omega), getD_set_ne _ _ _ _ (by omega)]
          rw [if_neg (by tauto)]
          by_cases h0 : i = 0
          · subst h0
            rw [if_pos rfl, keyPass_getD0]
          · rw [if_neg h0]
            by_cases hlt : i < 128
            · rw [if_pos hlt, keyPass_getD keys ks i (by omega) (by rw [hlen]; exact hlt)]
            · rw [if_neg hlt, List.getD_eq_default _ _ (by rw [hkl]; omega)]

/-- C4 amended: after a keyboard poll whose report holds exactly one
source key code with a non-zero mapping m, slot m reads down and every
other slot reads not-down, provided m is not one of the four modifier
slots 42, 54, 29, 56 — those are overwritten from the (empty) modifier bit
field after the main pass, so a mapping into a modifier slot would read
not-down; and a poll with an empty report and no modifiers leaves every
slot not-down. -/
theorem C4_snapshot_recompute (lookup : Nat → Nat) (c m : Nat) (ks : List Nat)
    (hlen : ks.length = 128) (hks0 : ks.getD 0 0 = 0)
    (hc0 : 0 < c) (hc : c < 128) (hm : lookup c = m) (hm0 : 0 < m) (hmlt : m < 128)
    (hmod : ¬(m = 42 ∨ m = 54 ∨ m = 29 ∨ m = 56)) :
    (decode_keyboard lookup ⟨0, [c, 0, 0, 0, 0, 0]⟩ ks).getD m 0 = 1 ∧
    (∀ i, i ≠ m → (decode_keyboard lookup ⟨0, [c, 0, 0, 0, 0, 0]⟩ ks).getD i 0 = 0) ∧
    (∀ i, (decode_keyboard lookup ⟨0, [0, 0, 0, 0, 0, 0]⟩ ks).getD i 0 = 0) := by
  have hkeys : st_keys_of lookup ⟨0, [c, 0, 0, 0, 0, 0]⟩ = [m, 0, 0, 0, 0, 0] := by
    simp [st_keys_of, hc0, hc, hm]
  have hkeys0 : st_keys_of lookup ⟨0, [0, 0, 0, 0, 0, 0]⟩ = [0, 0, 0, 0, 0, 0] := by
    simp [st_keys_of]
  refine ⟨?_, ?_, ?_⟩
  · rw [decode_keyboard, hkeys, decode_mod0_getD _ _ hlen, if_neg hmod,
      if_neg (by omega), if_pos hmlt, if_pos (by simp)]
  · intro i hi
    rw [decode_keyboard, hkeys, decode_mod0_getD _ _ hlen]
    by_cases hms : i = 42 ∨ i = 54 ∨ i = 29 ∨ i = 56
    · rw [if_pos hms]
    · rw [if_neg hms]
      by_cases h0 : i = 0
      · rw [if_pos h0, hks0]
      · rw [if_neg h0]
        by_cases hlt : i < 128
        · rw [if_pos hlt, if_neg ?_]
          simp [hi, h0]
        · rw [if_neg hlt]
  · intro i
    rw [decode_keyboard, hkeys0, decode_mod0_getD _ _ hlen]
    by_cases hms : i = 42 ∨ i = 54 ∨ i = 29 ∨ i = 56
    · rw [if_pos hms]
    · rw [if_neg hms]
      by_cases h0 : i = 0
      · rw [if_pos h0, hks0]
      · rw [if_neg h0]
        by_cases hlt : i < 128
        · rw [if_pos hlt, if_neg ?_]
          simp [h0]
        · rw [if_neg hlt]

set_option maxRecDepth 8000 in
theorem C4_snapshot_recompute_witness :
    ((List.replicate 128 0 : List Nat).length = 128 ∧
      (List.replicate 128 0 : List Nat).getD 0 0 = 0 ∧
      (0 : Nat) < 5 ∧ (5 : Nat) < 128 ∧
      (fun c => if c = 5 then 44 else 0) 5 = 44 ∧ (0 : Nat) < 44 ∧ (44 : Nat) < 128 ∧
      ¬((44 : Nat) = 42 ∨ (44 : Nat) = 54 ∨ (44 : Nat) = 29 ∨ (44 : Nat) = 56)) ∧
    (decode_keyboard (fun c => if c = 5 then 44 else 0) ⟨0, [5, 0, 0, 0, 0, 0]⟩
      (List.replicate 128 0)).getD 44 0 = 1 ∧
    (decode_keyboard (fun c => if c = 5 then 44 else 0) ⟨0, [5, 0, 0, 0, 0, 0]⟩
      (List.replicate 128 0)).getD 43 0 = 0 ∧
    (decode_keyboard (fun c => if c = 5 then 44 else 0) ⟨0, [0, 0, 0, 0, 0, 0]⟩
      (List.replicate 128 0)).getD 44 0 = 0 :=
  ⟨⟨by decide, getD_replicate_zero 128 0, by decide, by decide, by decide, by decide,
      by decide, by decide⟩,
    (C4_snapshot_recompute (fun c => if c = 5 then 44 else 0) 5 44 (List.replicate 128 0)
      (by decide) (getD_replicate_zero 128 0) (by decide) (by decide) (by decide)
      (by decide) (by decide) (by decide)).1,
    (C4_snapshot_recompute (fun c => if c = 5 then 44 else 0) 5 44 (List.replicate 128 0)
      (by decide) (getD_replicate_zero 128 0) (by decide) (by decide) (by decide)
      (by decide) (by decide) (by decide)).2.1 43 (by decide),
    (C4_snapshot_recompute (fun c => if c = 5 then 44 else 0) 5 44 (List.replicate 128 0)
      (by decide) (getD_replicate_zero 128 0) (by decide) (by decide) (by decide)
      (by decide) (by decide) (by decide)).2.2 44⟩

/-- The C4 counterexample scan-code map. Modelled from the spec: the
scan-code map is an arbitrary read-only function from source HID code to
target scan code below 128, with 0 meaning "no mapping"; the header
holding the concrete GB table is outside the visible source. This
instance maps source code 4 to the left-shift slot 42. -/
def c4Lookup : Nat → Nat := fun c => if c = 4 then 42 else 0

/-- C4 counterexample: source code 4 has the non-zero mapping 42, yet
after a poll reporting exactly that code with no modifier bits, slot 42
reads not-down — the modifier block overwrites it from the empty modifier
field after the main pass. -/
theorem C4_counterexample :
    c4Lookup 4 = 42 ∧ (42 : Nat) ≠ 0 ∧
    (decode_keyboard c4Lookup ⟨0, [4, 0, 0, 0, 0, 0]⟩ (List.replicate 128 0)).getD 42 0 = 0 := by
  decide

end AtariHid
